import Mathlib

/-!
# Verification of the DefexVision backend pipeline (src/app.py)

Shallow embedding of the `/upload` Flask endpoint and its helpers
(`send_email`, `upload_image_to_cloudinary`) from `src/app.py`.

Modelling conventions:
* External collaborators (YOLO model, Cloudinary, Firebase, Supabase, SMTP)
  are represented by an `Env` value fixing each collaborator's outcome for
  the request: `none` / `false` means the underlying call raises an
  exception, `some` / `true` means it succeeds.  Outcomes are per-request
  (the same collaborator behaves the same on every call within one request).
* Side effects are recorded as an ordered trace of `Event` values; an event
  is appended at the point where the source performs the corresponding
  external call (whether or not that call then succeeds).
* Python exceptions are modelled explicitly: helpers that catch internally
  (`send_email`, `upload_image_to_cloudinary`) always return normally, while
  the Firebase push and Supabase insert, which have no local handler, set a
  `raised` flag that aborts the per-result loop and is caught only by the
  outer handler of `upload`, which returns an HTTP 500 error response.
* Python local variables `url` and `detected_classes`, which are assigned
  only inside the `for r in results:` body, are modelled as
  `Option`-valued slots in `LoopState`: `none` means unbound, and reading
  an unbound variable at the final `jsonify` raises a `NameError`, caught
  by the outer handler (HTTP 500).
* Pixel-level drawing (`cv2.rectangle`, `cv2.putText`) mutates only the
  in-memory copy of the image; it is recorded as pure `DrawOp` data.
  Float confidences are modelled as rationals; they feed only the label
  text of a draw op, never control flow.
-/

/-- One YOLO box from `r.boxes`: class index, `xyxy` pixel coordinates and
optional confidence (`box.conf` may be `None` in the source). -/
structure Box where
  cls_id : Nat
  xyxy : Int × Int × Int × Int
  conf : Option Rat

/-- One element of `results = model(image_path)`: the class-index-to-name
mapping `r.names` and the detected boxes `r.boxes`. -/
structure YoloResult where
  names : Nat → String
  boxes : List Box

/-- The persisted record pushed to Firebase / inserted into Supabase
(lines 123-136 of src/app.py): timestamp, detected classes, image URL
(absent when the Cloudinary upload failed) and requester email. -/
structure DetectionRecord where
  timestamp : String
  classes : List String
  url : Option String
  email : String
deriving DecidableEq, Repr

/-- Observable external side effects of one request, in order. -/
inductive Event where
  | saveUpload (path : String)
  | inferCall (path : String)
  | writeResult (path : String)
  | uploadCall (path : String)
  | firebasePush (record : DetectionRecord)
  | supabaseInsert (record : DetectionRecord)
  | emailSent (receiver subject body : String)
  | emailFailed (receiver subject body : String)
  | removeFile (path : String)
deriving DecidableEq, Repr

/-- Pure record of a `cv2.rectangle` / `cv2.putText` call on the in-memory
image copy. -/
inductive DrawOp where
  | rectangle (p1 p2 : Int × Int) (color : Nat × Nat × Nat) (thickness : Nat)
  | putText (text : String) (org : Int × Int) (scale : Rat)
      (color : Nat × Nat × Nat) (thickness : Nat)

/-- Outcomes of the external collaborators for one request.
`inference = none` models `model(image_path)` raising (bad decode or model
failure); `uploadOutcome = none` models `cloudinary.uploader.upload`
raising (or a missing `secure_url` key); `firebaseOk` / `supabaseOk` /
`emailOk = false` model the corresponding client call raising. -/
structure Env where
  inference : Option (List YoloResult)
  uploadOutcome : Option String
  firebaseOk : Bool
  supabaseOk : Bool
  emailOk : Bool
  EMAIL_RECEIVER : String

/-- The request data reaching the handler: the `strftime` timestamp taken
at entry and the optional `email` form field. -/
structure Request where
  timestamp : String
  emailField : Option String

/-- Line 40 of src/app.py. -/
def defect_classes : List String :=
  ["IC-defect", "LED-defect", "Mouse-click defect", "Mouse-scrolldefect",
   "Resistor-defect", "capacitor-defect"]

/-- Line 108: `category = "Defect" if class_name in defect_classes else "Non-Defect"`. -/
def categoryOf (class_name : String) : String :=
  if defect_classes.contains class_name then "Defect" else "Non-Defect"

/-- Line 109: `color = (0, 0, 255) if category == "Defect" else (0, 255, 0)`. -/
def colorOf (category : String) : Nat × Nat × Nat :=
  if category = "Defect" then (0, 0, 255) else (0, 255, 0)

/-- Lines 103-113: the `for box in r.boxes:` loop.  Returns the
`detected_classes` list built by `append` in iteration order, together
with the draw ops applied to the image copy. -/
def boxLoop (names : Nat → String) : List Box → List String × List DrawOp
  | [] => ([], [])
  | box :: rest =>
    let class_name := names box.cls_id
    let x1 := box.xyxy.1
    let y1 := box.xyxy.2.1
    let x2 := box.xyxy.2.2.1
    let y2 := box.xyxy.2.2.2
    let conf := box.conf.getD 0
    let category := categoryOf class_name
    let color := colorOf category
    let label := class_name ++ " (" ++ toString conf ++ ")"
    (class_name :: (boxLoop names rest).1,
      DrawOp.rectangle (x1, y1) (x2, y2) color 2
        :: DrawOp.putText label (x1, y1 - 5) (1/2) color 1
        :: (boxLoop names rest).2)

/-- Lines 60-74: `send_email`.  The body is wrapped in `try/except
Exception`, so the function returns normally whether or not the SMTP
session succeeds; failure is only printed. -/
def send_email (env : Env) (subject body receiver : String) : List Event :=
  if env.emailOk then [Event.emailSent receiver subject body]
  else [Event.emailFailed receiver subject body]

/-- Lines 77-83: `upload_image_to_cloudinary`.  The upload call is wrapped
in `try/except Exception`; on failure the function prints and returns
`None`, never raising past its boundary. -/
def upload_image_to_cloudinary (env : Env) (image_path : String) :
    Option String × List Event :=
  (env.uploadOutcome, [Event.uploadCall image_path])

/-- State of the local variables of `upload` across the `for r in results:`
loop.  `url` / `detected_classes` are `none` while the Python local is
still unbound; `raised = some msg` means an uncaught exception is
propagating out of the loop towards the outer handler. -/
structure LoopState where
  url : Option (Option String)
  detected_classes : Option (List String)
  trace : List Event
  raised : Option String

/-- Lines 99-143: the body of `for r in results:` for one result `r`.
Annotates, writes the result image, uploads to Cloudinary (caught
internally), pushes to Firebase and inserts into Supabase (either raise
uncaught when the client fails), then sends the email (caught
internally). -/
def processResult (env : Env) (req : Request) (r : YoloResult)
    (st : LoopState) : LoopState :=
  let timestamp := req.timestamp
  let email := req.emailField.getD env.EMAIL_RECEIVER
  let detected_classes := (boxLoop r.names r.boxes).1
  let result_path := "results/result_" ++ timestamp ++ ".jpg"
  let tr1 := st.trace ++ [Event.writeResult result_path]
  let url := (upload_image_to_cloudinary env result_path).1
  let tr2 := tr1 ++ (upload_image_to_cloudinary env result_path).2
  let record : DetectionRecord :=
    ⟨timestamp, detected_classes, url, email⟩
  let tr3 := tr2 ++ [Event.firebasePush record]
  if env.firebaseOk = false then
    { url := some url, detected_classes := some detected_classes,
      trace := tr3, raised := some "firebase push failed" }
  else
    let tr4 := tr3 ++ [Event.supabaseInsert record]
    if env.supabaseOk = false then
      { url := some url, detected_classes := some detected_classes,
        trace := tr4, raised := some "supabase insert failed" }
    else
      let body := "Timestamp: " ++ timestamp ++ "\nDetected: "
        ++ toString detected_classes ++ "\nImage URL: " ++ toString url
      let tr5 := tr4 ++ send_email env "⚠️ Defect Detection Result" body email
      { url := some url, detected_classes := some detected_classes,
        trace := tr5, raised := none }

/-- The `for r in results:` loop: runs `processResult` on each result in
order; an uncaught exception aborts the remaining iterations. -/
def resultsLoop (env : Env) (req : Request) :
    List YoloResult → LoopState → LoopState
  | [], st => st
  | r :: rs, st =>
    let st1 := processResult env req r st
    match st1.raised with
    | some _ => st1
    | none => resultsLoop env req rs st1

/-- HTTP-level response of the `/upload` route: either the success JSON
`{"message": ..., "url": url, "classes": detected_classes}` or the error
JSON `{"error": msg}` served with status 500. -/
inductive Response where
  | ok (url : Option String) (classes : List String)
  | err (msg : String)
deriving DecidableEq, Repr

/-- HTTP status of a response: Flask defaults to 200 for the success body;
the except branch returns status 500 explicitly. -/
def statusOf : Response → Nat
  | Response.ok _ _ => 200
  | Response.err _ => 500

/-- Lines 86-148: the `/upload` route handler.  The whole body sits in one
`try/except Exception` returning `{"error": str(e)}, 500`.  Saves the
upload, runs the model (raising on decode/inference failure), iterates the
results, and finally reads `url` and `detected_classes` — a `NameError`
if the loop body never ran. -/
def upload (env : Env) (req : Request) : Response × List Event :=
  let timestamp := req.timestamp
  let image_path := "uploads/upload_" ++ timestamp ++ ".jpg"
  let tr0 := [Event.saveUpload image_path, Event.inferCall image_path]
  match env.inference with
  | none => (Response.err "inference failed", tr0)
  | some results =>
    let st := resultsLoop env req results
      { url := none, detected_classes := none, trace := tr0, raised := none }
    match st.raised with
    | some msg => (Response.err msg, st.trace)
    | none =>
      match st.url, st.detected_classes with
      | some u, some cs => (Response.ok u cs, st.trace)
      | _, _ => (Response.err "name url is not defined", st.trace)

/-- Does the trace contain a Cloudinary upload call? -/
def callsUpload (tr : List Event) : Prop :=
  ∃ p, Event.uploadCall p ∈ tr

/-- Does the trace contain a Firebase push? -/
def callsFirebase (tr : List Event) : Prop :=
  ∃ rec, Event.firebasePush rec ∈ tr

/-- Does the trace contain a Supabase insert? -/
def callsSupabase (tr : List Event) : Prop :=
  ∃ rec, Event.supabaseInsert rec ∈ tr

/-- Does the trace contain an SMTP send attempt (successful or failed)? -/
def callsEmail (tr : List Event) : Prop :=
  (∃ r s b, Event.emailSent r s b ∈ tr) ∨ (∃ r s b, Event.emailFailed r s b ∈ tr)

/-- The records pushed to Firebase, in trace order. -/
def firebaseRecords (tr : List Event) : List DetectionRecord :=
  tr.filterMap fun e => match e with
    | Event.firebasePush rec => some rec
    | _ => none

/-- The records inserted into Supabase, in trace order. -/
def supabaseRecords (tr : List Event) : List DetectionRecord :=
  tr.filterMap fun e => match e with
    | Event.supabaseInsert rec => some rec
    | _ => none

/-! ## Concrete sample data for witnesses and counterexamples -/

/-- A class-name mapping sending index 0 to a defect label and everything
else to a non-defect label. -/
def sampleNames : Nat → String :=
  fun n => if n = 0 then "IC-defect" else "screw"

/-- One detected box with a defect class. -/
def sampleBox : Box :=
  { cls_id := 0, xyxy := (10, 10, 50, 50), conf := some (92 / 100) }

/-- A result carrying one detection. -/
def sampleResult : YoloResult :=
  { names := sampleNames, boxes := [sampleBox] }

/-- A result carrying zero detections (one result object, empty boxes). -/
def emptyBoxesResult : YoloResult :=
  { names := sampleNames, boxes := [] }

/-- A fixed request. -/
def baseReq : Request :=
  { timestamp := "20250101_120000", emailField := some "user@example.com" }

/-- Environment where every collaborator succeeds. -/
def envAllOk : Env :=
  { inference := some [sampleResult], uploadOutcome := some "https://cdn.example/x.jpg",
    firebaseOk := true, supabaseOk := true, emailOk := true,
    EMAIL_RECEIVER := "admin@example.com" }

/-- Environment where only the Firebase push fails. -/
def envFirebaseFail : Env :=
  { envAllOk with firebaseOk := false }

/-- Environment where only the Supabase insert fails. -/
def envSupabaseFail : Env :=
  { envAllOk with supabaseOk := false }

/-- Environment where decoding/inference raises. -/
def envInferFail : Env :=
  { envAllOk with inference := none }

/-- Environment where the Cloudinary upload fails. -/
def envUploadFail : Env :=
  { envAllOk with uploadOutcome := none }

/-- Environment where the SMTP send fails. -/
def envEmailFail : Env :=
  { envAllOk with emailOk := false }

/-- Environment where inference returns an empty list of result objects. -/
def envNoResults : Env :=
  { envAllOk with inference := some [] }

/-- Environment where the single result has zero boxes. -/
def envZeroDetections : Env :=
  { envAllOk with inference := some [emptyBoxesResult] }

/-! ## Helper lemmas -/

/-- The classified-labels component of the box loop is the map of the
class-name lookup over the boxes. -/
lemma boxLoop_fst (names : Nat → String) (bs : List Box) :
    (boxLoop names bs).1 = bs.map fun b => names b.cls_id := by
  induction bs with
  | nil => rfl
  | cons b rest ih => simp [boxLoop, ih]

/-- Events already in the trace survive `processResult`: the loop body
only appends to the trace. -/
lemma processResult_mem (env : Env) (req : Request) (r : YoloResult)
    (st : LoopState) (x : Event) (hx : x ∈ st.trace) :
    x ∈ (processResult env req r st).trace := by
  unfold processResult upload_image_to_cloudinary send_email
  rcases env.firebaseOk with _ | _ <;>
    rcases env.supabaseOk with _ | _ <;>
      rcases env.emailOk with _ | _ <;>
        simp [List.mem_append, hx]

/-- `processResult` never appends a `removeFile` event. -/
lemma processResult_noRemove (env : Env) (req : Request) (r : YoloResult)
    (st : LoopState) (p : String)
    (h : Event.removeFile p ∉ st.trace) :
    Event.removeFile p ∉ (processResult env req r st).trace := by
  unfold processResult upload_image_to_cloudinary send_email
  rcases env.firebaseOk with _ | _ <;>
    rcases env.supabaseOk with _ | _ <;>
      rcases env.emailOk with _ | _ <;>
        simp [List.mem_append, h]

/-- Events already in the trace survive the whole result loop. -/
lemma resultsLoop_mem (env : Env) (req : Request) (rs : List YoloResult)
    (st : LoopState) (x : Event) (hx : x ∈ st.trace) :
    x ∈ (resultsLoop env req rs st).trace := by
  induction rs generalizing st with
  | nil => simpa [resultsLoop] using hx
  | cons r rest ih =>
    have h1 := processResult_mem env req r st x hx
    rcases hr : (processResult env req r st).raised with _ | msg
    · simpa [resultsLoop, hr] using ih (processResult env req r st) h1
    · simpa [resultsLoop, hr] using h1

/-- The result loop never appends a `removeFile` event. -/
lemma resultsLoop_noRemove (env : Env) (req : Request)
    (rs : List YoloResult) (st : LoopState) (p : String)
    (h : Event.removeFile p ∉ st.trace) :
    Event.removeFile p ∉ (resultsLoop env req rs st).trace := by
  induction rs generalizing st with
  | nil => simpa [resultsLoop] using h
  | cons r rest ih =>
    have h1 := processResult_noRemove env req r st p h
    rcases hr : (processResult env req r st).raised with _ | msg
    · simpa [resultsLoop, hr] using ih (processResult env req r st) h1
    · simpa [resultsLoop, hr] using h1

/-- Full evaluation of the handler on a single result when the Firebase
push raises: the outer handler returns the 500 error and the Supabase
insert and email never appear in the trace. -/
lemma upload_eq_of_fb_fail (env : Env) (req : Request) (r : YoloResult)
    (h : env.inference = some [r]) (hfb : env.firebaseOk = false) :
    upload env req =
      (Response.err "firebase push failed",
        [Event.saveUpload ("uploads/upload_" ++ req.timestamp ++ ".jpg"),
         Event.inferCall ("uploads/upload_" ++ req.timestamp ++ ".jpg"),
         Event.writeResult ("results/result_" ++ req.timestamp ++ ".jpg"),
         Event.uploadCall ("results/result_" ++ req.timestamp ++ ".jpg"),
         Event.firebasePush
           ⟨req.timestamp, (boxLoop r.names r.boxes).1, env.uploadOutcome,
            req.emailField.getD env.EMAIL_RECEIVER⟩]) := by
  simp [upload, h, resultsLoop, processResult, upload_image_to_cloudinary, hfb]

/-- Full evaluation of the handler on a single result when only the
Supabase insert raises: 500 error, Firebase push stays in the trace. -/
lemma upload_eq_of_sb_fail (env : Env) (req : Request) (r : YoloResult)
    (h : env.inference = some [r]) (hfb : env.firebaseOk = true)
    (hsb : env.supabaseOk = false) :
    upload env req =
      (Response.err "supabase insert failed",
        [Event.saveUpload ("uploads/upload_" ++ req.timestamp ++ ".jpg"),
         Event.inferCall ("uploads/upload_" ++ req.timestamp ++ ".jpg"),
         Event.writeResult ("results/result_" ++ req.timestamp ++ ".jpg"),
         Event.uploadCall ("results/result_" ++ req.timestamp ++ ".jpg"),
         Event.firebasePush
           ⟨req.timestamp, (boxLoop r.names r.boxes).1, env.uploadOutcome,
            req.emailField.getD env.EMAIL_RECEIVER⟩,
         Event.supabaseInsert
           ⟨req.timestamp, (boxLoop r.names r.boxes).1, env.uploadOutcome,
            req.emailField.getD env.EMAIL_RECEIVER⟩]) := by
  simp [upload, h, resultsLoop, processResult, upload_image_to_cloudinary,
    hfb, hsb]

/-- Full evaluation of the handler on a single result when both sinks
succeed: the success body carries the upload outcome (possibly null) and
the classified labels, whatever the email outcome. -/
lemma upload_eq_of_sinks_ok (env : Env) (req : Request) (r : YoloResult)
    (h : env.inference = some [r]) (hfb : env.firebaseOk = true)
    (hsb : env.supabaseOk = true) :
    upload env req =
      (Response.ok env.uploadOutcome ((boxLoop r.names r.boxes).1),
        [Event.saveUpload ("uploads/upload_" ++ req.timestamp ++ ".jpg"),
         Event.inferCall ("uploads/upload_" ++ req.timestamp ++ ".jpg"),
         Event.writeResult ("results/result_" ++ req.timestamp ++ ".jpg"),
         Event.uploadCall ("results/result_" ++ req.timestamp ++ ".jpg"),
         Event.firebasePush
           ⟨req.timestamp, (boxLoop r.names r.boxes).1, env.uploadOutcome,
            req.emailField.getD env.EMAIL_RECEIVER⟩,
         Event.supabaseInsert
           ⟨req.timestamp, (boxLoop r.names r.boxes).1, env.uploadOutcome,
            req.emailField.getD env.EMAIL_RECEIVER⟩]
        ++ send_email env "⚠️ Defect Detection Result"
             ("Timestamp: " ++ req.timestamp ++ "\nDetected: "
               ++ toString (boxLoop r.names r.boxes).1 ++ "\nImage URL: "
               ++ toString env.uploadOutcome)
             (req.emailField.getD env.EMAIL_RECEIVER)) := by
  simp [upload, h, resultsLoop, processResult, upload_image_to_cloudinary,
    hfb, hsb]

/-- The trace component of the handler when inference returned a result
list: whatever the loop and the final `jsonify` do, the trace is the one
accumulated by the loop. -/
lemma upload_snd_some (env : Env) (req : Request) (results : List YoloResult)
    (h : env.inference = some results) :
    (upload env req).2 =
      (resultsLoop env req results
        { url := none, detected_classes := none,
          trace := [Event.saveUpload ("uploads/upload_" ++ req.timestamp ++ ".jpg"),
                    Event.inferCall ("uploads/upload_" ++ req.timestamp ++ ".jpg")],
          raised := none }).trace := by
  simp only [upload, h]
  rcases (resultsLoop env req results
      { url := none, detected_classes := none,
        trace := [Event.saveUpload ("uploads/upload_" ++ req.timestamp ++ ".jpg"),
                  Event.inferCall ("uploads/upload_" ++ req.timestamp ++ ".jpg")],
        raised := none }).raised with _ | msg
  · rcases (resultsLoop env req results
        { url := none, detected_classes := none,
          trace := [Event.saveUpload ("uploads/upload_" ++ req.timestamp ++ ".jpg"),
                    Event.inferCall ("uploads/upload_" ++ req.timestamp ++ ".jpg")],
          raised := none }).url with _ | u
    · rfl
    · rcases (resultsLoop env req results
          { url := none, detected_classes := none,
            trace := [Event.saveUpload ("uploads/upload_" ++ req.timestamp ++ ".jpg"),
                      Event.inferCall ("uploads/upload_" ++ req.timestamp ++ ".jpg")],
            raised := none }).detected_classes with _ | cs
      · rfl
      · rfl
  · rfl

/-- C5: the derived Category is a pure, total function of the class label
alone — `Defect` exactly for labels in the configured defect set, and
`Non-Defect` for every other label, including unseen ones. -/
theorem C5_category_pure_total (label : String) :
    (categoryOf label = "Defect" ↔ label ∈ defect_classes) ∧
    (categoryOf label = "Non-Defect" ↔ label ∉ defect_classes) := by
  by_cases h : label ∈ defect_classes <;>
    simp [categoryOf, h]

/-- C6: the classified-labels sequence produced by the annotation loop has
exactly one entry per input detection — that detection's class label — in
the input order. -/
theorem C6_labels_one_per_detection (r : YoloResult) :
    ((boxLoop r.names r.boxes).1).length = r.boxes.length ∧
    ∀ i : Nat, ((boxLoop r.names r.boxes).1)[i]? =
      (r.boxes[i]?).map fun b => r.names b.cls_id := by
  rw [boxLoop_fst]
  exact ⟨by simp, fun i => by simp⟩

/-- C3: when decoding or inference raises, the request aborts with an
error response and no upload, persist or notify call occurs. -/
theorem C3_fatal_short_circuit (env : Env) (req : Request)
    (h : env.inference = none) :
    statusOf (upload env req).1 = 500 ∧
    ¬ callsUpload (upload env req).2 ∧
    ¬ callsFirebase (upload env req).2 ∧
    ¬ callsSupabase (upload env req).2 ∧
    ¬ callsEmail (upload env req).2 := by
  simp [upload, h, statusOf, callsUpload, callsFirebase, callsSupabase,
    callsEmail]

/-- Witness for C3 at a concrete failing-inference environment. -/
theorem C3_witness :
    statusOf (upload envInferFail baseReq).1 = 500 ∧
    ¬ callsUpload (upload envInferFail baseReq).2 ∧
    ¬ callsFirebase (upload envInferFail baseReq).2 ∧
    ¬ callsSupabase (upload envInferFail baseReq).2 ∧
    ¬ callsEmail (upload envInferFail baseReq).2 :=
  C3_fatal_short_circuit envInferFail baseReq rfl

/-- C10: when the model returns an empty sequence of result objects, the
final success body reads the unbound locals `url` / `detected_classes`,
so the handler answers with a 500 error response, not a success with
empty classes. -/
theorem C10_empty_results_500 (env : Env) (req : Request)
    (h : env.inference = some []) :
    statusOf (upload env req).1 = 500 ∧
    (upload env req).1 = Response.err "name url is not defined" := by
  simp [upload, h, resultsLoop, statusOf]

/-- Witness for C10 at a concrete zero-results environment. -/
theorem C10_witness :
    statusOf (upload envNoResults baseReq).1 = 500 ∧
    (upload envNoResults baseReq).1 = Response.err "name url is not defined" :=
  C10_empty_results_500 envNoResults baseReq rfl

/-- Counterexample to C1: with inference succeeding and only the Firebase
push failing, the Firebase call is made but the Supabase insert is never
invoked — the sink writes are not independent. -/
theorem C1_counterexample :
    callsFirebase (upload envFirebaseFail baseReq).2 ∧
    ¬ callsSupabase (upload envFirebaseFail baseReq).2 := by
  rw [upload_eq_of_fb_fail envFirebaseFail baseReq sampleResult rfl rfl]
  constructor
  · exact ⟨⟨baseReq.timestamp, (boxLoop sampleResult.names sampleResult.boxes).1,
      envFirebaseFail.uploadOutcome,
      baseReq.emailField.getD envFirebaseFail.EMAIL_RECEIVER⟩, by simp⟩
  · rintro ⟨rec, hrec⟩
    simp at hrec

/-- C1 (amended): a Firebase-push failure propagates uncaught and prevents
the Supabase insert; conversely, whenever the Firebase push succeeds the
Supabase insert is invoked and the Firebase write stays in the trace
regardless of the Supabase outcome (no rollback). -/
theorem C1_sink_dependence (env : Env) (req : Request) (r : YoloResult)
    (h : env.inference = some [r]) :
    (env.firebaseOk = false →
      callsFirebase (upload env req).2 ∧ ¬ callsSupabase (upload env req).2) ∧
    (env.firebaseOk = true →
      callsFirebase (upload env req).2 ∧ callsSupabase (upload env req).2) := by
  constructor
  · intro hfb
    rw [upload_eq_of_fb_fail env req r h hfb]
    refine ⟨⟨⟨req.timestamp, (boxLoop r.names r.boxes).1, env.uploadOutcome,
      req.emailField.getD env.EMAIL_RECEIVER⟩, by simp⟩, ?_⟩
    rintro ⟨rec, hrec⟩
    simp at hrec
  · intro hfb
    rcases hsb : env.supabaseOk with _ | _
    · rw [upload_eq_of_sb_fail env req r h hfb hsb]
      exact ⟨⟨⟨req.timestamp, (boxLoop r.names r.boxes).1, env.uploadOutcome,
          req.emailField.getD env.EMAIL_RECEIVER⟩, by simp⟩,
        ⟨⟨req.timestamp, (boxLoop r.names r.boxes).1, env.uploadOutcome,
          req.emailField.getD env.EMAIL_RECEIVER⟩, by simp⟩⟩
    · rw [upload_eq_of_sinks_ok env req r h hfb hsb]
      exact ⟨⟨⟨req.timestamp, (boxLoop r.names r.boxes).1, env.uploadOutcome,
          req.emailField.getD env.EMAIL_RECEIVER⟩, by simp⟩,
        ⟨⟨req.timestamp, (boxLoop r.names r.boxes).1, env.uploadOutcome,
          req.emailField.getD env.EMAIL_RECEIVER⟩, by simp⟩⟩

/-- Witness for the amended C1 at a concrete environment where only the
Supabase insert fails: the Firebase push is attempted and stays. -/
theorem C1_witness :
    callsFirebase (upload envSupabaseFail baseReq).2 ∧
    callsSupabase (upload envSupabaseFail baseReq).2 :=
  (C1_sink_dependence envSupabaseFail baseReq sampleResult rfl).2 rfl

/-- Counterexample to C2: inference succeeded (the DETECTED state was
reached) yet the response is a 500 error, because the Firebase sink
failure is not caught at its call site. -/
theorem C2_counterexample :
    envFirebaseFail.inference = some [sampleResult] ∧
    statusOf (upload envFirebaseFail baseReq).1 = 500 := by
  refine ⟨rfl, ?_⟩
  rw [upload_eq_of_fb_fail envFirebaseFail baseReq sampleResult rfl rfl]
  rfl

/-- C2 (amended): upload and notify failures are caught at their call
sites, so with both sinks succeeding the response carries the classes for
any upload/email outcome; but a failure of either record sink escapes to
the outer handler and produces a 500 error response even though detection
succeeded. -/
theorem C2_error_containment (env : Env) (req : Request) (r : YoloResult)
    (h : env.inference = some [r]) :
    (env.firebaseOk = true → env.supabaseOk = true →
      (upload env req).1 =
        Response.ok env.uploadOutcome ((boxLoop r.names r.boxes).1)) ∧
    (env.firebaseOk = false ∨ env.supabaseOk = false →
      statusOf (upload env req).1 = 500) := by
  constructor
  · intro hfb hsb
    rw [upload_eq_of_sinks_ok env req r h hfb hsb]
  · rintro (hfb | hsb)
    · rw [upload_eq_of_fb_fail env req r h hfb]
      rfl
    · rcases hfb : env.firebaseOk with _ | _
      · rw [upload_eq_of_fb_fail env req r h hfb]
        rfl
      · rw [upload_eq_of_sb_fail env req r h hfb hsb]
        rfl

/-- Witness for the amended C2 at the all-success environment. -/
theorem C2_witness :
    (upload envAllOk baseReq).1 =
      Response.ok envAllOk.uploadOutcome
        ((boxLoop sampleResult.names sampleResult.boxes).1) :=
  (C2_error_containment envAllOk baseReq sampleResult rfl).1 rfl rfl

/-- C4: when the Cloudinary upload fails, the helper returns a null URL
instead of raising past its boundary, and (with the remaining steps
succeeding) the pipeline does not abort: the response still carries the
classified labels with a null `url`. -/
theorem C4_upload_failure_degrades (env : Env) (req : Request)
    (r : YoloResult) (h : env.inference = some [r])
    (hu : env.uploadOutcome = none) (hfb : env.firebaseOk = true)
    (hsb : env.supabaseOk = true) :
    (upload_image_to_cloudinary env
      ("results/result_" ++ req.timestamp ++ ".jpg")).1 = none ∧
    (upload env req).1 = Response.ok none ((boxLoop r.names r.boxes).1) := by
  refine ⟨by simp [upload_image_to_cloudinary, hu], ?_⟩
  rw [upload_eq_of_sinks_ok env req r h hfb hsb]
  simp [hu]

/-- Witness for C4 at a concrete failing-upload environment. -/
theorem C4_witness :
    (upload_image_to_cloudinary envUploadFail
      ("results/result_" ++ baseReq.timestamp ++ ".jpg")).1 = none ∧
    (upload envUploadFail baseReq).1 =
      Response.ok none ((boxLoop sampleResult.names sampleResult.boxes).1) :=
  C4_upload_failure_degrades envUploadFail baseReq sampleResult rfl rfl rfl rfl

/-- C7: an SMTP failure is swallowed inside `send_email` (the function
returns normally, merely recording the failure), and the response still
returns the classes and the URL from the earlier successful steps. -/
theorem C7_notify_failure_nonfatal (env : Env) (req : Request)
    (r : YoloResult) (u : String) (h : env.inference = some [r])
    (hu : env.uploadOutcome = some u) (hfb : env.firebaseOk = true)
    (hsb : env.supabaseOk = true) (he : env.emailOk = false) :
    (∀ s b rcv, send_email env s b rcv = [Event.emailFailed rcv s b]) ∧
    (upload env req).1 = Response.ok (some u) ((boxLoop r.names r.boxes).1) := by
  refine ⟨fun s b rcv => by simp [send_email, he], ?_⟩
  rw [upload_eq_of_sinks_ok env req r h hfb hsb]
  simp [hu]

/-- Witness for C7 at a concrete failing-SMTP environment. -/
theorem C7_witness :
    (upload envEmailFail baseReq).1 =
      Response.ok (some "https://cdn.example/x.jpg")
        ((boxLoop sampleResult.names sampleResult.boxes).1) :=
  (C7_notify_failure_nonfatal envEmailFail baseReq sampleResult
    "https://cdn.example/x.jpg" rfl rfl rfl rfl rfl).2

/-- Counterexample to C8: on a fully successful request the saved upload
file is on the trace but no removal of it ever happens before the request
completes. -/
theorem C8_counterexample :
    Event.saveUpload ("uploads/upload_" ++ baseReq.timestamp ++ ".jpg")
      ∈ (upload envAllOk baseReq).2 ∧
    Event.removeFile ("uploads/upload_" ++ baseReq.timestamp ++ ".jpg")
      ∉ (upload envAllOk baseReq).2 := by
  rw [upload_eq_of_sinks_ok envAllOk baseReq sampleResult rfl rfl rfl]
  constructor
  · simp
  · simp [send_email, envAllOk]

/-- C8 (amended): temporary files are never cleaned up: on every request
and every exit path the saved upload is created and no `removeFile` of
any path ever occurs. -/
theorem C8_no_cleanup (env : Env) (req : Request) :
    Event.saveUpload ("uploads/upload_" ++ req.timestamp ++ ".jpg")
      ∈ (upload env req).2 ∧
    ∀ p, Event.removeFile p ∉ (upload env req).2 := by
  rcases h : env.inference with _ | results
  · constructor
    · simp [upload, h]
    · intro p
      simp [upload, h]
  · rw [upload_snd_some env req results h]
    constructor
    · exact resultsLoop_mem env req results _ _ (by simp)
    · intro p
      exact resultsLoop_noRemove env req results _ p (by simp)

/-- C9: for a request whose image yields zero detections (one result
object with an empty box list), the response carries `classes = []`, the
upload is still attempted so `url` is present on upload success, and both
sinks receive a record with an empty classes sequence. -/
theorem C9_zero_detections (env : Env) (req : Request) (r : YoloResult)
    (u : String) (h : env.inference = some [r]) (hb : r.boxes = [])
    (hu : env.uploadOutcome = some u) (hfb : env.firebaseOk = true)
    (hsb : env.supabaseOk = true) :
    (upload env req).1 = Response.ok (some u) [] ∧
    callsUpload (upload env req).2 ∧
    firebaseRecords (upload env req).2 =
      [⟨req.timestamp, [], some u, req.emailField.getD env.EMAIL_RECEIVER⟩] ∧
    supabaseRecords (upload env req).2 =
      [⟨req.timestamp, [], some u, req.emailField.getD env.EMAIL_RECEIVER⟩] := by
  have hcl : (boxLoop r.names r.boxes).1 = [] := by rw [hb]; rfl
  rw [upload_eq_of_sinks_ok env req r h hfb hsb]
  refine ⟨by simp [hcl, hu], ⟨"results/result_" ++ req.timestamp ++ ".jpg", by simp⟩, ?_, ?_⟩
  · rcases he : env.emailOk with _ | _ <;>
      simp [firebaseRecords, hcl, hu, send_email, he]
  · rcases he : env.emailOk with _ | _ <;>
      simp [supabaseRecords, hcl, hu, send_email, he]

/-- Witness for C9 at a concrete zero-detection environment. -/
theorem C9_witness :
    (upload envZeroDetections baseReq).1 =
      Response.ok (some "https://cdn.example/x.jpg") [] ∧
    callsUpload (upload envZeroDetections baseReq).2 ∧
    firebaseRecords (upload envZeroDetections baseReq).2 =
      [⟨baseReq.timestamp, [], some "https://cdn.example/x.jpg",
        baseReq.emailField.getD envZeroDetections.EMAIL_RECEIVER⟩] ∧
    supabaseRecords (upload envZeroDetections baseReq).2 =
      [⟨baseReq.timestamp, [], some "https://cdn.example/x.jpg",
        baseReq.emailField.getD envZeroDetections.EMAIL_RECEIVER⟩] :=
  C9_zero_detections envZeroDetections baseReq emptyBoxesResult
    "https://cdn.example/x.jpg" rfl rfl rfl rfl rfl
